import Mathlib

/-!
# Verification of the paper-feed recommendation/pagination core

Shallow embedding of the core of the swipeable paper-feed client:

* `extractKeywords`        — keyword heuristic (services/geminiService.ts)
* `planFetch` / `fetchFromArxiv` — source fetcher with proxy fallback
* `enrichPapersWithGemini` — enrichment stage with per-record fallback
* `AppState` and the step functions `startFetch`, `completeFetchSuccess`,
  `completeFetchFailure`, `handleSwipe`, `prefetchCheck`, `reload`
  — the buffer manager (App.tsx)

Network and language-model behaviour is abstracted as explicit environment
parameters (proxy outcomes, enrichment outcomes, the strategy coin flip);
everything else is translated directly from the source.
-/

/-- `Paper` from types.ts.  The optional `image_prompt` field is omitted:
no code in the verified core reads or writes it. -/
structure Paper where
  id : String
  title : String
  authors : List String
  year : String
  abstract_en : String
  abstract_zh : String
  tldr : String
  tags : List String
deriving Repr, DecidableEq

/-- `RecommendationContext` from types.ts. -/
structure RecommendationContext where
  likedPapers : List String
  dislikedPapers : List String
  currentFocus : String
deriving Repr, DecidableEq

/-- `SwipeDirection` from types.ts. -/
inductive SwipeDirection where
  | LEFT
  | RIGHT
deriving Repr, DecidableEq

/-- `RawArxivPaper`, the internal interface for raw data parsed from the
ArXiv feed (services/geminiService.ts). -/
structure RawArxivPaper where
  id : String
  title : String
  authors : List String
  published : String
  summary : String
deriving Repr, DecidableEq

/-! ## Keyword extractor (`extractKeywords`) -/

/-- JavaScript `\w`: ASCII letters, digits and underscore.  The splitting
regex `[\s\W]+` matches (runs of) every other character. -/
def isWordChar (c : Char) : Bool :=
  c.isAlphanum || c = '_'

/-- `String.split(/[\s\W]+/)` on a character list.  The second argument is
`some acc` while inside a field whose (reversed) characters so far are `acc`,
and `none` while inside a separator run (consecutive separators collapse; a
boundary separator yields an empty field, matching JavaScript). -/
def splitNonWordAux : List Char → Option (List Char) → List String
  | [], some acc => [String.mk acc.reverse]
  | [], none => [""]
  | c :: cs, some acc =>
    if isWordChar c then splitNonWordAux cs (some (c :: acc))
    else String.mk acc.reverse :: splitNonWordAux cs none
  | c :: cs, none =>
    if isWordChar c then splitNonWordAux cs (some [c])
    else splitNonWordAux cs none

/-- JavaScript `str.split(/[\s\W]+/)`. -/
def jsSplitNonWord (s : String) : List String :=
  splitNonWordAux s.toList (some [])

/-- JavaScript `str.toLowerCase()`, character by character (the titles in
play are ASCII, where the two agree). -/
def jsToLowerCase (s : String) : String :=
  String.mk (s.toList.map Char.toLower)

/-- `[...new Set(ks)]`: deduplicate keeping the first occurrence of each
element, in order.  `seen` accumulates the elements already emitted. -/
def dedupFirstSeen (seen : List String) : List String → List String
  | [] => []
  | x :: xs =>
    if seen.contains x then dedupFirstSeen seen xs
    else x :: dedupFirstSeen (x :: seen) xs

/-- The stop-word list of `extractKeywords`. -/
def stopWords : List String :=
  ["the", "a", "an", "of", "for", "in", "on", "with", "to", "at", "by",
   "is", "are", "and", "or"]

/-- `extractKeywords` from services/geminiService.ts: combine the last 3
liked titles, lowercase, split on whitespace/non-word runs, keep tokens of
length > 4 that are not stop words, deduplicate keeping first occurrences,
take 3, and render them as `all:` terms joined by `" OR "`. -/
def extractKeywords (titles : List String) : String :=
  if titles.length = 0 then ""
  else
    let recentTitles := String.intercalate " " (titles.drop (titles.length - 3))
    let words := jsSplitNonWord (jsToLowerCase recentTitles)
    let keywords := words.filter fun w => w.length > 4 && !(stopWords.contains w)
    let uniqueKeywords := (dedupFirstSeen [] keywords).take 3
    if uniqueKeywords.length = 0 then ""
    else String.intercalate " OR " (uniqueKeywords.map fun k => "all:" ++ k)

/-! ## Source fetcher (`fetchFromArxiv`)

The hybrid strategy selection is deterministic given the coin
`Math.random() > 0.5`, modelled as an explicit `coin : Bool`.  The network
is modelled as the outcome each proxy attempt produces for the planned
request: a transport error (`fetch` rejected), an HTTP response that may be
non-2xx, or a body, whose markup check and DOM parse are abstracted by the
`hasFeedMarkup`/`hasEntryMarkup` flags and the parsed `entries` (the DOM
walk itself cannot throw: every missing sub-field degrades to `""` via
optional chaining). -/

/-- The query, sort field and start offset actually sent, as computed by the
strategy-selection prefix of `fetchFromArxiv`. -/
structure FetchPlan where
  query : String
  sortBy : String
  finalStartIndex : Nat
deriving Repr, DecidableEq

/-- Strategy selection of `fetchFromArxiv`: with likes and a winning coin,
the relevance strategy (keyword query, cursor wrapped modulo 50); otherwise
the recency strategy (static query, cursor used directly). -/
def planFetch (startIndex : Nat) (context : RecommendationContext)
    (coin : Bool) : FetchPlan :=
  let hasLikes := context.likedPapers.length > 0
  let useRelevanceStrategy := hasLikes && coin
  if useRelevanceStrategy then
    { query := "(all:\"autonomous agent\" OR all:\"large language model\") AND ("
        ++ extractKeywords context.likedPapers ++ ")"
      sortBy := "relevance"
      finalStartIndex := startIndex % 50 }
  else
    { query := "all:\"autonomous agent\" OR all:\"large language model\" OR all:\"multi-agent\""
      sortBy := "submittedDate"
      finalStartIndex := startIndex }

/-- An HTTP response as seen by one proxy attempt. -/
structure ProxyResponse where
  ok : Bool
  hasFeedMarkup : Bool
  hasEntryMarkup : Bool
  entries : List RawArxivPaper
deriving Repr, DecidableEq

/-- What one proxy attempt yields: a rejected `fetch`, or a response. -/
inductive ProxyOutcome where
  | transportError
  | response (r : ProxyResponse)
deriving Repr, DecidableEq

/-- The body of one iteration of the proxy loop, up to its `catch`: throws
on transport error, non-2xx status, or missing `<feed`/`<entry` markup;
otherwise returns the parsed entries. -/
def attemptProxy : ProxyOutcome → Except String (List RawArxivPaper)
  | .transportError => .error "fetch failed"
  | .response r =>
    if !r.ok then .error "HTTP error"
    else if !r.hasFeedMarkup && !r.hasEntryMarkup then
      .error "Response is not valid ArXiv XML"
    else .ok r.entries

/-- The proxy loop of `fetchFromArxiv` in the exception monad: each failing
attempt is caught (logged) and the next proxy tried; falling off the end of
the list is the trailing `return []`. -/
def proxyLoopE : List ProxyOutcome → Except String (List RawArxivPaper)
  | [] => .ok []
  | o :: rest =>
    match attemptProxy o with
    | .ok papers => .ok papers
    | .error _ => proxyLoopE rest

/-- `fetchFromArxiv`: plan the request, then run the proxy loop over the
environment's outcomes for that plan (one per proxy, in the fixed proxy
order).  The dead `.error` branch mirrors that no exception escapes. -/
def fetchFromArxiv (startIndex : Nat) (context : RecommendationContext)
    (coin : Bool) (net : FetchPlan → List ProxyOutcome) : List RawArxivPaper :=
  match proxyLoopE (net (planFetch startIndex context coin)) with
  | .ok papers => papers
  | .error _ => []

/-! ## Enrichment stage (`enrichPapersWithGemini`) -/

/-- One entry of the JSON array returned by the generative-text call.  Every
field is optional: the model may omit any of them (and may even omit the
id, in which case the entry matches no raw paper). -/
structure EnrichedEntry where
  id : Option String
  abstract_zh : Option String
  tldr : Option String
  tags : Option (List String)
deriving Repr, DecidableEq

/-- Outcome of the `generateContent` call: `success entries` when the call
returned (an unparsable JSON body leaves `entries = []`, exactly as the
inner `try/catch` around `JSON.parse` does), `failure` when the call threw. -/
inductive GeminiOutcome where
  | success (enrichedData : List EnrichedEntry)
  | failure
deriving Repr, DecidableEq

/-- JavaScript `x || d` for an optional string field: `undefined` and the
empty string are falsy. -/
def jsOrString (x : Option String) (d : String) : String :=
  match x with
  | none => d
  | some s => if s = "" then d else s

/-- JavaScript `x || d` for an optional array field: any array, even empty,
is truthy. -/
def jsOrTags (x : Option (List String)) (d : List String) : List String :=
  x.getD d

/-- The merge step of the success path: find the enrichment entry whose id
matches the raw paper (`|| {}` when absent) and build the `Paper`, falling
back field by field. -/
def mergeOne (enrichedData : List EnrichedEntry) (raw : RawArxivPaper) : Paper :=
  let enriched := enrichedData.find? fun e => e.id == some raw.id
  { id := raw.id
    title := raw.title
    authors := raw.authors
    year := raw.published
    abstract_en := raw.summary
    abstract_zh := jsOrString (enriched.bind EnrichedEntry.abstract_zh)
      "翻译生成中... (Translating...)"
    tldr := jsOrString (enriched.bind EnrichedEntry.tldr) raw.title
    tags := jsOrTags (enriched.bind EnrichedEntry.tags) ["New Paper"] }

/-- `enrichPapersWithGemini`: empty input short-circuits; a successful call
merges entry by entry; a thrown call degrades every record to the fixed
fallback annotation. -/
def enrichPapersWithGemini (rawPapers : List RawArxivPaper)
    (outcome : GeminiOutcome) : List Paper :=
  if rawPapers.length = 0 then []
  else
    match outcome with
    | .success enrichedData => rawPapers.map (mergeOne enrichedData)
    | .failure =>
      rawPapers.map fun raw =>
        { id := raw.id
          title := raw.title
          authors := raw.authors
          year := raw.published
          abstract_en := raw.summary
          abstract_zh := "暂无翻译 (AI服务繁忙)"
          tldr := "New ArXiv Paper"
          tags := ["ArXiv"] }

/-- `fetchRecommendations`: raw fetch, then enrichment. -/
def fetchRecommendations (context : RecommendationContext) (startIndex : Nat)
    (coin : Bool) (net : FetchPlan → List ProxyOutcome)
    (gemini : GeminiOutcome) : List Paper :=
  enrichPapersWithGemini (fetchFromArxiv startIndex context coin net) gemini

/-! ## Buffer manager (App.tsx)

`loadMorePapers` is an `async` function; its execution splits at the single
`await` into a synchronous prefix and a continuation.  `startFetch` embeds
the prefix (guard check, setting `fetchingRef`, optional `setLoading(true)`,
building the context and issuing the request); `completeFetchSuccess` and
`completeFetchFailure` embed the continuation after the awaited call
resolves or rejects, including the `finally` block.  The `currentLiked`
argument captured by the prefix is what the continuation's deduplication
reads, so it is stored in `pending` while a fetch is in flight.  All state
lives on the single UI thread, so a session is a sequence of these steps
interleaved with `handleSwipe` / `prefetchCheck` / `reload` steps. -/

/-- The React state and refs of `App`. -/
structure AppState where
  papers : List Paper
  likedPapers : List Paper
  loading : Bool
  fetchingRef : Bool
  nextStartIndexRef : Nat
  pending : Option (List Paper)
deriving Repr, DecidableEq

/-- Watermark: fetch more when the buffer drops below this. -/
def PREFETCH_THRESHOLD : Nat := 4

/-- The state at mount: empty buffer and liked list, `loading = true`,
no fetch in flight, cursor 0. -/
def initialState : AppState :=
  { papers := []
    likedPapers := []
    loading := true
    fetchingRef := false
    nextStartIndexRef := 0
    pending := none }

/-- Synchronous prefix of `loadMorePapers(currentLiked, isInitialLoad)`: if
`fetchingRef` is set the call returns at once, changing nothing; otherwise
the flag is set (before the first suspension point), `loading` is raised on
the initial load only, and the captured `currentLiked` is recorded for the
continuation. -/
def startFetch (currentLiked : List Paper) (isInitialLoad : Bool)
    (s : AppState) : AppState :=
  if s.fetchingRef then s
  else
    { s with
      fetchingRef := true
      loading := if isInitialLoad then true else s.loading
      pending := some currentLiked }

/-- Continuation of `loadMorePapers` when `fetchRecommendations` resolves
with `newPapers`: on a non-empty batch the cursor advances by the full batch
length and the batch, filtered against the ids in the current buffer and in
the captured `currentLiked`, is appended; the `finally` block then clears
`loading` and `fetchingRef`. -/
def completeFetchSuccess (newPapers : List Paper) (s : AppState) : AppState :=
  let s1 :=
    if newPapers.length > 0 then
      let existingIds := s.papers.map Paper.id
      let currentLikedIds := (s.pending.getD []).map Paper.id
      let uniqueNew := newPapers.filter fun p =>
        !(existingIds.contains p.id) && !(currentLikedIds.contains p.id)
      { s with
        nextStartIndexRef := s.nextStartIndexRef + newPapers.length
        papers := s.papers ++ uniqueNew }
    else s
  { s1 with loading := false, fetchingRef := false, pending := none }

/-- Continuation of `loadMorePapers` when the awaited call rejects: the
error is logged and the `finally` block clears `loading` and
`fetchingRef`. -/
def completeFetchFailure (s : AppState) : AppState :=
  { s with loading := false, fetchingRef := false, pending := none }

/-- `handleSwipe`: pop the front card; a right-swipe appends it to the liked
list.  `papers[0]` is only ever read with a non-empty buffer (`manualSwipe`
guards, and a drag comes from a rendered card), so the empty case leaves the
state unchanged. -/
def handleSwipe (direction : SwipeDirection) (s : AppState) : AppState :=
  match s.papers with
  | [] => s
  | currentPaper :: remainingPapers =>
    { s with
      papers := remainingPapers
      likedPapers :=
        if direction = SwipeDirection.RIGHT then
          s.likedPapers ++ [currentPaper]
        else s.likedPapers }

/-- `manualSwipe`: the footer buttons only swipe on a non-empty buffer. -/
def manualSwipe (direction : SwipeDirection) (s : AppState) : AppState :=
  if s.papers.length > 0 then handleSwipe direction s else s

/-- The prefetch effect: when the buffer is below the watermark, non-empty,
and no fetch is in flight, call `loadMorePapers(likedPapers, false)` —
i.e. run its synchronous prefix with the current liked list. -/
def prefetchCheck (s : AppState) : AppState :=
  if s.papers.length < PREFETCH_THRESHOLD && !s.fetchingRef
      && s.papers.length > 0 then
    startFetch s.likedPapers false s
  else s

/-- The manual reload button (shown when the buffer is empty and not
loading): `loadMorePapers(likedPapers, true)`. -/
def reload (s : AppState) : AppState :=
  startFetch s.likedPapers true s

/-- The startup effect: `loadMorePapers([], true)`. -/
def startupLoad (s : AppState) : AppState :=
  startFetch [] true s

/-! ## Shared sample data for witnesses -/

/-- A concrete raw record, as parsed from one ArXiv entry. -/
def sampleRaw : RawArxivPaper :=
  { id := "2301.00001"
    title := "Sample Agents"
    authors := ["A. Author"]
    published := "2023-01-01"
    summary := "An abstract." }

/-- A second concrete raw record. -/
def sampleRaw2 : RawArxivPaper :=
  { id := "2301.00002"
    title := "Sample Planning"
    authors := ["B. Author"]
    published := "2023-01-02"
    summary := "Another abstract." }

/-- A concrete enriched paper (the fallback enrichment of `sampleRaw`). -/
def samplePaper : Paper :=
  { id := "2301.00001"
    title := "Sample Agents"
    authors := ["A. Author"]
    year := "2023-01-01"
    abstract_en := "An abstract."
    abstract_zh := "暂无翻译 (AI服务繁忙)"
    tldr := "New ArXiv Paper"
    tags := ["ArXiv"] }

/-! ## Helper lemmas -/

/-- The success path of the enrichment stage is a pointwise merge over the
raw records. -/
theorem enrich_success_eq_map (enrichedData : List EnrichedEntry)
    (rawPapers : List RawArxivPaper) :
    enrichPapersWithGemini rawPapers (.success enrichedData) =
      rawPapers.map (mergeOne enrichedData) := by
  unfold enrichPapersWithGemini
  rcases rawPapers with _ | ⟨r, rs⟩ <;> simp

/-- The failure path of the enrichment stage maps every raw record to the
fixed fallback annotation. -/
theorem enrich_failure_eq_map (rawPapers : List RawArxivPaper) :
    enrichPapersWithGemini rawPapers .failure =
      rawPapers.map (fun raw =>
        { id := raw.id
          title := raw.title
          authors := raw.authors
          year := raw.published
          abstract_en := raw.summary
          abstract_zh := "暂无翻译 (AI服务繁忙)"
          tldr := "New ArXiv Paper"
          tags := ["ArXiv"] }) := by
  unfold enrichPapersWithGemini
  rcases rawPapers with _ | ⟨r, rs⟩ <;> simp

/-- Enrichment never changes the batch size. -/
theorem enrich_length (rawPapers : List RawArxivPaper) (outcome : GeminiOutcome) :
    (enrichPapersWithGemini rawPapers outcome).length = rawPapers.length := by
  cases outcome with
  | success d => rw [enrich_success_eq_map]; simp
  | failure => rw [enrich_failure_eq_map]; simp

/-! ## Claim theorems -/

/-- Claim C3: for every list of raw records given to the enrichment stage,
the returned list has exactly the input's length and the record at each
position carries the identifier of the raw record at the same position —
for a successful generative call (with or without matching entries, both
covered by `GeminiOutcome.success`) and for an outright failure alike. -/
theorem c3_enrichment_one_to_one (rawPapers : List RawArxivPaper)
    (outcome : GeminiOutcome) :
    (enrichPapersWithGemini rawPapers outcome).length = rawPapers.length ∧
    (enrichPapersWithGemini rawPapers outcome).map Paper.id =
      rawPapers.map RawArxivPaper.id := by
  refine ⟨enrich_length rawPapers outcome, ?_⟩
  cases outcome with
  | success d =>
    rw [enrich_success_eq_map, List.map_map]
    exact List.map_congr_left fun raw _ => rfl
  | failure =>
    rw [enrich_failure_eq_map, List.map_map]
    exact List.map_congr_left fun raw _ => rfl

/-- Claim C10: whatever the enrichment outcome — matched entry, missing or
unparsable entry, or outright service failure — the output record at each
position keeps the raw record's identifier, title, author list, publication
date and English abstract unchanged; the right-hand side does not mention
the outcome, so only the translated abstract, one-line summary and tags can
depend on the enrichment response. -/
theorem c10_enrichment_frame (rawPapers : List RawArxivPaper)
    (outcome : GeminiOutcome) :
    (enrichPapersWithGemini rawPapers outcome).map
        (fun p => (p.id, p.title, p.authors, p.year, p.abstract_en)) =
      rawPapers.map
        (fun r => (r.id, r.title, r.authors, r.published, r.summary)) := by
  cases outcome with
  | success d =>
    rw [enrich_success_eq_map, List.map_map]
    exact List.map_congr_left fun raw _ => rfl
  | failure =>
    rw [enrich_failure_eq_map, List.map_map]
    exact List.map_congr_left fun raw _ => rfl

/-- Claim C9: on a non-empty buffer, a swipe pops exactly the front record;
a left-swipe leaves the liked collection unchanged, and a right-swipe
appends that same record, unmodified, to its end (so liked records sit in
swipe order). -/
theorem c9_swipe_pops_front (s : AppState) (currentPaper : Paper)
    (rest : List Paper) (h : s.papers = currentPaper :: rest) :
    (handleSwipe SwipeDirection.LEFT s).papers = rest ∧
    (handleSwipe SwipeDirection.LEFT s).likedPapers = s.likedPapers ∧
    (handleSwipe SwipeDirection.RIGHT s).papers = rest ∧
    (handleSwipe SwipeDirection.RIGHT s).likedPapers =
      s.likedPapers ++ [currentPaper] := by
  simp [handleSwipe, h]

/-- Witness for C9 at a concrete one-element buffer. -/
theorem c9_swipe_pops_front_witness :
    (handleSwipe SwipeDirection.RIGHT
        { initialState with papers := [samplePaper] }).likedPapers =
      [samplePaper] := by
  have h := c9_swipe_pops_front { initialState with papers := [samplePaper] }
    samplePaper [] rfl
  simpa using h.2.2.2

/-- Claim C7: a raw record whose identifier has no matching (or no
parsable) enrichment entry still yields an output record, carrying the
original English abstract with the placeholder translated abstract and the
placeholder tag; and when the enrichment call fails outright, every record
of the batch receives the fixed fallback annotation instead of the batch
failing. -/
theorem c7_enrichment_fallbacks :
    (∀ (rawPapers : List RawArxivPaper) (enrichedData : List EnrichedEntry)
        (raw : RawArxivPaper), raw ∈ rawPapers →
      enrichedData.find? (fun e => e.id == some raw.id) = none →
      ({ id := raw.id
         title := raw.title
         authors := raw.authors
         year := raw.published
         abstract_en := raw.summary
         abstract_zh := "翻译生成中... (Translating...)"
         tldr := raw.title
         tags := ["New Paper"] } : Paper) ∈
        enrichPapersWithGemini rawPapers (.success enrichedData)) ∧
    (∀ rawPapers : List RawArxivPaper,
      enrichPapersWithGemini rawPapers .failure =
        rawPapers.map (fun raw =>
          { id := raw.id
            title := raw.title
            authors := raw.authors
            year := raw.published
            abstract_en := raw.summary
            abstract_zh := "暂无翻译 (AI服务繁忙)"
            tldr := "New ArXiv Paper"
            tags := ["ArXiv"] })) := by
  constructor
  · intro rawPapers enrichedData raw hmem hfind
    rw [enrich_success_eq_map]
    have : mergeOne enrichedData raw =
        { id := raw.id
          title := raw.title
          authors := raw.authors
          year := raw.published
          abstract_en := raw.summary
          abstract_zh := "翻译生成中... (Translating...)"
          tldr := raw.title
          tags := ["New Paper"] } := by
      simp [mergeOne, hfind, jsOrString, jsOrTags]
    exact this ▸ List.mem_map_of_mem (mergeOne enrichedData) hmem
  · exact enrich_failure_eq_map

/-- Witness for C7: an enrichment response mentioning only `sampleRaw2`
leaves `sampleRaw` on the placeholder fallback. -/
theorem c7_enrichment_fallbacks_witness :
    ({ id := "2301.00001"
       title := "Sample Agents"
       authors := ["A. Author"]
       year := "2023-01-01"
       abstract_en := "An abstract."
       abstract_zh := "翻译生成中... (Translating...)"
       tldr := "Sample Agents"
       tags := ["New Paper"] } : Paper) ∈
      enrichPapersWithGemini [sampleRaw]
        (.success [{ id := some "2301.00002"
                     abstract_zh := some "翻译"
                     tldr := some "t"
                     tags := some ["T"] }]) := by
  have h := c7_enrichment_fallbacks.1 [sampleRaw]
    [{ id := some "2301.00002"
       abstract_zh := some "翻译"
       tldr := some "t"
       tags := some ["T"] }] sampleRaw (by decide) (by decide)
  simpa [sampleRaw] using h

/-- Claim C2: a fetch cycle (synchronous prefix, then completion with the
enriched batch) that receives a non-empty raw batch advances the pagination
cursor by exactly the raw (pre-deduplication) batch size, whatever the
enrichment outcome and however many records the dedup filter later drops. -/
theorem c2_cursor_advances_by_raw_count (s : AppState)
    (currentLiked : List Paper) (isInitialLoad : Bool)
    (rawPapers : List RawArxivPaper) (outcome : GeminiOutcome)
    (hidle : s.fetchingRef = false) (hraw : rawPapers ≠ []) :
    (completeFetchSuccess (enrichPapersWithGemini rawPapers outcome)
        (startFetch currentLiked isInitialLoad s)).nextStartIndexRef =
      s.nextStartIndexRef + rawPapers.length := by
  have hlen : (enrichPapersWithGemini rawPapers outcome).length
      = rawPapers.length := enrich_length rawPapers outcome
  have hpos : 0 < rawPapers.length := List.length_pos.mpr hraw
  simp [completeFetchSuccess, startFetch, hidle, hpos, hlen]

/-- Witness for C2: cursor 0 and a raw batch of 5 records yield cursor 5,
even though every one of the 5 deduplicates away (they are all already in
the captured liked list). -/
theorem c2_cursor_advances_by_raw_count_witness :
    (completeFetchSuccess
        (enrichPapersWithGemini [sampleRaw, sampleRaw, sampleRaw, sampleRaw,
          sampleRaw] .failure)
        (startFetch [samplePaper] false initialState)).nextStartIndexRef = 5 :=
  c2_cursor_advances_by_raw_count initialState [samplePaper] false
    [sampleRaw, sampleRaw, sampleRaw, sampleRaw, sampleRaw] .failure rfl
    (by decide)

/-- Claim C4: the in-flight guard.  A fetch request issued while the flag
is set — by the watermark trigger, by reload, by anything calling
`loadMorePapers` — is a no-op that changes no state at all; from an idle
state the synchronous prefix sets the flag (before the first suspension
point, which is exactly where `startFetch` ends); and both continuations,
success and failure, clear it, so at most one fetch+enrich pipeline is ever
outstanding. -/
theorem c4_fetch_guard :
    (∀ (currentLiked : List Paper) (isInitialLoad : Bool) (s : AppState),
      s.fetchingRef = true → startFetch currentLiked isInitialLoad s = s) ∧
    (∀ (currentLiked : List Paper) (isInitialLoad : Bool) (s : AppState),
      s.fetchingRef = false →
      (startFetch currentLiked isInitialLoad s).fetchingRef = true) ∧
    (∀ (newPapers : List Paper) (s : AppState),
      (completeFetchSuccess newPapers s).fetchingRef = false) ∧
    (∀ s : AppState, (completeFetchFailure s).fetchingRef = false) := by
  refine ⟨?_, ?_, ?_, ?_⟩
  · intro currentLiked isInitialLoad s h
    simp [startFetch, h]
  · intro currentLiked isInitialLoad s h
    simp [startFetch, h]
  · intro newPapers s
    simp [completeFetchSuccess]
  · intro s
    simp [completeFetchFailure]

/-- Witness for C4: a rapid second reload while a fetch is in flight
changes nothing, and both completions clear the flag. -/
theorem c4_fetch_guard_witness :
    reload (reload initialState) = reload initialState ∧
    (reload initialState).fetchingRef = true ∧
    (completeFetchSuccess [samplePaper] (reload initialState)).fetchingRef
      = false ∧
    (completeFetchFailure (reload initialState)).fetchingRef = false := by
  have hflag : (reload initialState).fetchingRef = true :=
    c4_fetch_guard.2.1 initialState.likedPapers true initialState rfl
  exact ⟨c4_fetch_guard.1 (reload initialState).likedPapers true
      (reload initialState) hflag,
    hflag,
    c4_fetch_guard.2.2.1 [samplePaper] (reload initialState),
    c4_fetch_guard.2.2.2 (reload initialState)⟩

/-- Claim C6: when a fetched batch deduplicates (against the buffer's ids
and the captured liked list's ids) to zero new unique records, the
completion leaves the buffer exactly as it was and ends with the guard flag
down and no pending fetch — the completion itself starts no further fetch,
so only a later swipe, watermark check or manual action can. -/
theorem c6_zero_unique_batch (s : AppState) (newPapers : List Paper)
    (hdup : newPapers.filter (fun p =>
        !((s.papers.map Paper.id).contains p.id) &&
        !(((s.pending.getD []).map Paper.id).contains p.id)) = []) :
    (completeFetchSuccess newPapers s).papers = s.papers ∧
    (completeFetchSuccess newPapers s).fetchingRef = false ∧
    (completeFetchSuccess newPapers s).pending = none := by
  unfold completeFetchSuccess
  by_cases hlen : 0 < newPapers.length
  · simp only [hlen, if_true, hdup, List.append_nil]
    exact ⟨trivial, trivial, trivial⟩
  · simp only [hlen, if_false]
    exact ⟨trivial, trivial, trivial⟩

/-- Witness for C6: a batch consisting of the already-liked `samplePaper`
(captured at fetch start) grows the buffer by nothing and ends idle. -/
theorem c6_zero_unique_batch_witness :
    (completeFetchSuccess [samplePaper]
        { initialState with fetchingRef := true, pending := some [samplePaper] }).papers
      = [] ∧
    (completeFetchSuccess [samplePaper]
        { initialState with fetchingRef := true, pending := some [samplePaper] }).fetchingRef
      = false := by
  have h := c6_zero_unique_batch
    { initialState with fetchingRef := true, pending := some [samplePaper] }
    [samplePaper] (by decide)
  exact ⟨h.1, h.2.1⟩

/-- The proxy loop never lets an exception escape. -/
theorem proxyLoopE_isOk (outcomes : List ProxyOutcome) :
    ∃ papers, proxyLoopE outcomes = .ok papers := by
  induction outcomes with
  | nil => exact ⟨[], rfl⟩
  | cons o rest ih =>
    unfold proxyLoopE
    cases h : attemptProxy o with
    | ok papers => exact ⟨papers, rfl⟩
    | error e => simpa [h] using ih

/-- If every attempt in the list throws, the loop falls through to `[]`. -/
theorem proxyLoopE_all_fail (outcomes : List ProxyOutcome)
    (h : ∀ o ∈ outcomes, ∀ papers, attemptProxy o ≠ .ok papers) :
    proxyLoopE outcomes = .ok [] := by
  induction outcomes with
  | nil => rfl
  | cons o rest ih =>
    unfold proxyLoopE
    cases ho : attemptProxy o with
    | ok papers => exact absurd ho (h o (List.mem_cons_self o rest) papers)
    | error e =>
      exact ih fun p hp papers => h p (List.mem_cons_of_mem o hp) papers

/-- The first attempt that returns entries decides the loop's result. -/
theorem proxyLoopE_first_success (pre rest : List ProxyOutcome)
    (o : ProxyOutcome) (papers : List RawArxivPaper)
    (hpre : ∀ p ∈ pre, ∀ l, attemptProxy p ≠ .ok l)
    (ho : attemptProxy o = .ok papers) :
    proxyLoopE (pre ++ o :: rest) = .ok papers := by
  induction pre with
  | nil => simp [proxyLoopE, ho]
  | cons p ps ih =>
    cases hp : attemptProxy p with
    | ok l => exact absurd hp (hpre p (List.mem_cons_self p ps) l)
    | error e =>
      simp only [List.cons_append, proxyLoopE, hp]
      exact ih fun q hq l => hpre q (List.mem_cons_of_mem p hq) l

/-- Claim C8: for every cursor, context, coin and network environment, the
source fetcher propagates no exception — the exception-level proxy loop
always resolves to exactly the list `fetchFromArxiv` returns; if every
proxy attempt fails (transport error, non-2xx, or missing markup) the
result is the empty sequence; and the first attempt producing a well-formed
response supplies the result. -/
theorem c8_fetch_no_exception (startIndex : Nat)
    (context : RecommendationContext) (coin : Bool)
    (net : FetchPlan → List ProxyOutcome) :
    (proxyLoopE (net (planFetch startIndex context coin)) =
      .ok (fetchFromArxiv startIndex context coin net)) ∧
    ((∀ o ∈ net (planFetch startIndex context coin),
        ∀ papers, attemptProxy o ≠ .ok papers) →
      fetchFromArxiv startIndex context coin net = []) ∧
    (∀ (pre rest : List ProxyOutcome) (o : ProxyOutcome)
        (papers : List RawArxivPaper),
      net (planFetch startIndex context coin) = pre ++ o :: rest →
      (∀ p ∈ pre, ∀ l, attemptProxy p ≠ .ok l) →
      attemptProxy o = .ok papers →
      fetchFromArxiv startIndex context coin net = papers) := by
  obtain ⟨papers, hok⟩ := proxyLoopE_isOk (net (planFetch startIndex context coin))
  refine ⟨?_, ?_, ?_⟩
  · rw [hok]
    unfold fetchFromArxiv
    rw [hok]
  · intro hfail
    unfold fetchFromArxiv
    rw [proxyLoopE_all_fail _ hfail]
  · intro pre rest o ps heq hpre ho
    unfold fetchFromArxiv
    rw [heq, proxyLoopE_first_success pre rest o ps hpre ho]

/-- Witness for C8: the first proxy falls to a transport error, the second
returns a well-formed feed with one entry; the fetcher returns that entry
and the exception-level loop resolves. -/
theorem c8_fetch_no_exception_witness :
    fetchFromArxiv 0
        { likedPapers := [], dislikedPapers := [], currentFocus := "AI Agents" }
        false
        (fun _ => [ProxyOutcome.transportError,
          ProxyOutcome.response
            { ok := true, hasFeedMarkup := true, hasEntryMarkup := true,
              entries := [sampleRaw] }]) = [sampleRaw] := by
  exact (c8_fetch_no_exception 0
      { likedPapers := [], dislikedPapers := [], currentFocus := "AI Agents" }
      false
      (fun _ => [ProxyOutcome.transportError,
        ProxyOutcome.response
          { ok := true, hasFeedMarkup := true, hasEntryMarkup := true,
            entries := [sampleRaw] }])).2.2
    [ProxyOutcome.transportError] []
    (ProxyOutcome.response
      { ok := true, hasFeedMarkup := true, hasEntryMarkup := true,
        entries := [sampleRaw] })
    [sampleRaw] rfl
    (by
      intro p hp l h
      rcases List.mem_singleton.mp hp with rfl
      simp [attemptProxy] at h)
    rfl

/-- The keyword algorithm as the specification words it: take the last 3
liked titles, concatenate (the liked list is in insertion order, i.e. in
reverse order of recency, so the concatenation reads oldest-of-the-three
first), lowercase, split on whitespace/non-word boundaries, drop the fixed
stop words and every token of length ≤ 4, deduplicate preserving first-seen
order, keep the first 3 keywords joined with OR (each as an `all:` query
term), and return the empty string when no liked titles or no qualifying
tokens exist. -/
def extractKeywordsSpec (titles : List String) : String :=
  if titles = [] then ""
  else
    let lastThree := titles.drop (titles.length - 3)
    let tokens := jsSplitNonWord (jsToLowerCase (String.intercalate " " lastThree))
    let qualifying :=
      (tokens.filter fun w => !(stopWords.contains w)).filter fun w => w.length > 4
    let kept := (dedupFirstSeen [] qualifying).take 3
    if kept = [] then ""
    else String.intercalate " OR " (kept.map fun k => "all:" ++ k)

/-- Claim C5: the extractor computes exactly the specified pipeline (last 3
titles, concatenate, lowercase, split on whitespace/non-word boundaries,
drop stop words and tokens of length ≤ 4, deduplicate first-seen, first 3
joined with OR, empty string when nothing qualifies); on the three sample
titles the kept keywords are `large`, `language`, `model` — the first-seen
order in the concatenation of the titles as stored (reverse-recency order,
most recent last). -/
theorem c5_keyword_extractor :
    (∀ titles, extractKeywords titles = extractKeywordsSpec titles) ∧
    extractKeywords ["Large Language Model Agents", "Autonomous Planning Systems",
      "Multi Agent Coordination"] = "all:large OR all:language OR all:model" ∧
    ((dedupFirstSeen []
        ((jsSplitNonWord (jsToLowerCase
            ("Large Language Model Agents Autonomous Planning Systems Multi Agent Coordination"))).filter
          fun w => w.length > 4 && !(stopWords.contains w))).take 3 =
      ["large", "language", "model"]) := by
  refine ⟨?_, by decide, by decide⟩
  intro titles
  simp only [extractKeywords, extractKeywordsSpec, List.filter_filter,
    List.length_eq_zero]

/-- The session state after the trace refuting claim C1: startup fetch
delivers `sampleRaw` (enriched via the failure fallback); the watermark
effect starts a second fetch, capturing the still-empty liked list; the
user right-swipes the paper while that fetch is in flight; the second fetch
delivers the same paper again. -/
def staleLikedTraceState : AppState :=
  completeFetchSuccess (enrichPapersWithGemini [sampleRaw] .failure)
    (handleSwipe SwipeDirection.RIGHT
      (prefetchCheck
        (completeFetchSuccess (enrichPapersWithGemini [sampleRaw] .failure)
          (startupLoad initialState))))

/-- Claim C1 is refuted by the code: the deduplication inside the fetch
completion consults the liked list captured when the fetch started, not the
liked list at merge time.  After the trace in `staleLikedTraceState` (a
right-swipe while a fetch is in flight whose batch re-contains the swiped
paper), identifier `2301.00001` occurs twice across buffer ∪ liked: the
filter saw an empty buffer and the stale empty liked capture and appended
the paper the user had just liked. -/
theorem c1_duplicate_across_buffer_and_liked :
    ((staleLikedTraceState.papers ++ staleLikedTraceState.likedPapers).map
        Paper.id).count "2301.00001" = 2 ∧
    staleLikedTraceState.papers = [samplePaper] ∧
    staleLikedTraceState.likedPapers = [samplePaper] := by
  decide
